import Mathlib

/-!
Verification development for the palette color library core.

The Rust source is shallowly embedded: color structs become Lean records
over `ℚ` (exact arithmetic standing in for the generic float component
type `T: FloatComponent`), stateless trait methods become plain functions,
and the transcendental cube root (`cbrt` / `powf(1/3)`) is passed as an
abstract function parameter, so every statement below holds for any cube
root implementation.  The gamma transfer function (`powf` with a
non-integer exponent) is embedded over `ℝ`.  The hex parser
`Rgb::<S, u8>::from_str` is embedded at the byte level (`List ℕ` of UTF-8
bytes), with `Option` capturing panics (string slicing off a char
boundary, arithmetic overflow) and `Except` capturing the typed errors.
-/

/-- Embedding of `Xyz<Wp, T>` (src/xyz.rs): channels `x`, `y`, `z`.
The zero-sized `white_point: PhantomData<Wp>` field carries no data; the
white point's tristimulus values (`Wp::get_xyz()`) are instead passed
explicitly as an `XyzQ` value where the source consults them. -/
structure XyzQ where
  x : ℚ
  y : ℚ
  z : ℚ
deriving DecidableEq

/-- Embedding of `Lab<Wp, T>` (src/lab.rs): channels `l`, `a`, `b`. -/
structure LabQ where
  l : ℚ
  a : ℚ
  b : ℚ
deriving DecidableEq

/-- Embedding of `Luv<Wp, T>` (src/luv.rs): channels `l`, `u`, `v`. -/
structure LuvQ where
  l : ℚ
  u : ℚ
  v : ℚ
deriving DecidableEq

/-- Embedding of `Rgb<S, T>` (src/rgb/rgb.rs): channels `red`, `green`,
`blue`.  The zero-sized standard tag `S` is passed separately where a
method consults it. -/
structure RgbQ where
  red : ℚ
  green : ℚ
  blue : ℚ
deriving DecidableEq

/-- Embedding of `Alpha<C, T>` (src/alpha/alpha.rs): a wrapped color plus
an `alpha` channel. -/
structure AlphaQ (C : Type) where
  color : C
  alpha : ℚ
deriving DecidableEq

/-- Modelled from the spec: the free scalar function `clamp(value, min, max)`
lives at the crate root (lib.rs), which is not among the provided source
files.  Per the spec, `Clamp` "returns a new value with every channel
independently clamped to its bounds" (inclusive at both ends), which the
crate implements as `if value < min { min } else if value > max { max }
else { value }`. -/
def clampVal (value lo hi : ℚ) : ℚ :=
  if value < lo then lo else if value > hi then hi else value

/-- Embedding of `Lab::min_l` (src/lab.rs): `T::zero()`. -/
def labMinL : ℚ := 0

/-- Embedding of `Lab::max_l` (src/lab.rs): `from_f64(100.0)`. -/
def labMaxL : ℚ := 100

/-- Embedding of `Lab::min_a` (src/lab.rs): `from_f64(-128.0)`. -/
def labMinA : ℚ := -128

/-- Embedding of `Lab::max_a` (src/lab.rs): `from_f64(127.0)`. -/
def labMaxA : ℚ := 127

/-- Embedding of `Lab::min_b` (src/lab.rs): `from_f64(-128.0)`. -/
def labMinB : ℚ := -128

/-- Embedding of `Lab::max_b` (src/lab.rs): `from_f64(127.0)`. -/
def labMaxB : ℚ := 127

/-- Embedding of `Luv::min_l` (src/luv.rs): `T::zero()`. -/
def luvMinL : ℚ := 0

/-- Embedding of `Luv::max_l` (src/luv.rs): `from_f64(100.0)`. -/
def luvMaxL : ℚ := 100

/-- Embedding of `Luv::min_u` (src/luv.rs): `from_f64(-84.0)`. -/
def luvMinU : ℚ := -84

/-- Embedding of `Luv::max_u` (src/luv.rs): `from_f64(176.0)`. -/
def luvMaxU : ℚ := 176

/-- Embedding of `Luv::min_v` (src/luv.rs): `from_f64(-135.0)`. -/
def luvMinV : ℚ := -135

/-- Embedding of `Luv::max_v` (src/luv.rs): `from_f64(108.0)`. -/
def luvMaxV : ℚ := 108

/-- Embedding of `Xyz::min_x` (src/xyz.rs): `T::zero()`. -/
def xyzMinX : ℚ := 0

/-- Embedding of `Xyz::max_x` (src/xyz.rs): `Wp::get_xyz().x`; `wp` is the
white point's tristimulus triple. -/
def xyzMaxX (wp : XyzQ) : ℚ := wp.x

/-- Embedding of `Xyz::min_y` (src/xyz.rs): `T::zero()`. -/
def xyzMinY : ℚ := 0

/-- Embedding of `Xyz::max_y` (src/xyz.rs): `Wp::get_xyz().y`. -/
def xyzMaxY (wp : XyzQ) : ℚ := wp.y

/-- Embedding of `Xyz::min_z` (src/xyz.rs): `T::zero()`. -/
def xyzMinZ : ℚ := 0

/-- Embedding of `Xyz::max_z` (src/xyz.rs): `Wp::get_xyz().z`. -/
def xyzMaxZ (wp : XyzQ) : ℚ := wp.z

/-- Embedding of `Rgb::min_red` / `min_green` / `min_blue`
(src/rgb/rgb.rs): `T::zero()`.  All three channels share it. -/
def rgbMinChannel : ℚ := 0

/-- Embedding of `Rgb::max_red` / `max_green` / `max_blue`
(src/rgb/rgb.rs): `T::max_intensity()`.  The component type's maximum
intensity is passed explicitly as `maxI`. -/
def rgbMaxChannel (maxI : ℚ) : ℚ := maxI

/-- Embedding of `Alpha::min_alpha` (src/alpha/alpha.rs): `T::zero()`. -/
def alphaMin : ℚ := 0

/-- Embedding of `Alpha::max_alpha` (src/alpha/alpha.rs):
`T::max_intensity()`, passed explicitly as `maxI`. -/
def alphaMax (maxI : ℚ) : ℚ := maxI

/-- Embedding of `IsWithinBounds for Lab` (src/lab.rs). -/
def labIsWithinBounds (c : LabQ) : Bool :=
  decide (c.l ≥ labMinL) && decide (c.l ≤ labMaxL) &&
  decide (c.a ≥ labMinA) && decide (c.a ≤ labMaxA) &&
  decide (c.b ≥ labMinB) && decide (c.b ≤ labMaxB)

/-- Embedding of `Clamp for Lab` (src/lab.rs). -/
def labClamp (c : LabQ) : LabQ :=
  ⟨clampVal c.l labMinL labMaxL,
   clampVal c.a labMinA labMaxA,
   clampVal c.b labMinB labMaxB⟩

/-- Embedding of `IsWithinBounds for Luv` (src/luv.rs). -/
def luvIsWithinBounds (c : LuvQ) : Bool :=
  decide (c.l ≥ luvMinL) && decide (c.l ≤ luvMaxL) &&
  decide (c.u ≥ luvMinU) && decide (c.u ≤ luvMaxU) &&
  decide (c.v ≥ luvMinV) && decide (c.v ≤ luvMaxV)

/-- Embedding of `Clamp for Luv` (src/luv.rs). -/
def luvClamp (c : LuvQ) : LuvQ :=
  ⟨clampVal c.l luvMinL luvMaxL,
   clampVal c.u luvMinU luvMaxU,
   clampVal c.v luvMinV luvMaxV⟩

/-- Embedding of `IsWithinBounds for Xyz` (src/xyz.rs); `wp` is the white
point's tristimulus triple `Wp::get_xyz()`. -/
def xyzIsWithinBounds (wp : XyzQ) (c : XyzQ) : Bool :=
  decide (c.x ≥ xyzMinX) && decide (c.x ≤ xyzMaxX wp) &&
  decide (c.y ≥ xyzMinY) && decide (c.y ≤ xyzMaxY wp) &&
  decide (c.z ≥ xyzMinZ) && decide (c.z ≤ xyzMaxZ wp)

/-- Embedding of `Clamp for Xyz` (src/xyz.rs). -/
def xyzClamp (wp : XyzQ) (c : XyzQ) : XyzQ :=
  ⟨clampVal c.x xyzMinX (xyzMaxX wp),
   clampVal c.y xyzMinY (xyzMaxY wp),
   clampVal c.z xyzMinZ (xyzMaxZ wp)⟩

/-- Embedding of `IsWithinBounds for Rgb` (src/rgb/rgb.rs); `maxI` is the
component type's `max_intensity()`. -/
def rgbIsWithinBounds (maxI : ℚ) (c : RgbQ) : Bool :=
  decide (c.red ≥ rgbMinChannel) && decide (c.red ≤ rgbMaxChannel maxI) &&
  decide (c.green ≥ rgbMinChannel) && decide (c.green ≤ rgbMaxChannel maxI) &&
  decide (c.blue ≥ rgbMinChannel) && decide (c.blue ≤ rgbMaxChannel maxI)

/-- Embedding of `Clamp for Rgb` (src/rgb/rgb.rs). -/
def rgbClamp (maxI : ℚ) (c : RgbQ) : RgbQ :=
  ⟨clampVal c.red rgbMinChannel (rgbMaxChannel maxI),
   clampVal c.green rgbMinChannel (rgbMaxChannel maxI),
   clampVal c.blue rgbMinChannel (rgbMaxChannel maxI)⟩

/-- Embedding of `IsWithinBounds for Alpha<C, T>` (src/alpha/alpha.rs):
the wrapped color's own check (passed as `inC`) plus
`alpha >= min_alpha && alpha <= max_alpha`. -/
def alphaIsWithinBounds {C : Type} (inC : C → Bool) (maxI : ℚ)
    (c : AlphaQ C) : Bool :=
  inC c.color && decide (c.alpha ≥ alphaMin) && decide (c.alpha ≤ alphaMax maxI)

/-- Embedding of `Clamp for Alpha<C, T>` (src/alpha/alpha.rs): clamp the
wrapped color (via `clampC`) and clamp `alpha` to
`[min_alpha, max_alpha]`. -/
def alphaClamp {C : Type} (clampC : C → C) (maxI : ℚ)
    (c : AlphaQ C) : AlphaQ C :=
  ⟨clampC c.color, clampVal c.alpha alphaMin (alphaMax maxI)⟩

/-- Embedding of `Mix for Lab` (src/lab.rs): clamp the factor to `[0, 1]`,
then `self + (other - self) * factor` with componentwise `+`/`-` and
scalar `*` (the `impl_color_add!`/`impl_color_sub!`/`impl_color_mul!`
macro family, whose componentwise meaning is recorded in the spec). -/
def labMix (a b : LabQ) (factor : ℚ) : LabQ :=
  let f := clampVal factor 0 1
  ⟨a.l + (b.l - a.l) * f, a.a + (b.a - a.a) * f, a.b + (b.b - a.b) * f⟩

/-- Embedding of `Mix for Luv` (src/luv.rs), same shape as for `Lab`. -/
def luvMix (a b : LuvQ) (factor : ℚ) : LuvQ :=
  let f := clampVal factor 0 1
  ⟨a.l + (b.l - a.l) * f, a.u + (b.u - a.u) * f, a.v + (b.v - a.v) * f⟩

/-- Embedding of `Mix for Xyz` (src/xyz.rs), same shape as for `Lab`. -/
def xyzMix (a b : XyzQ) (factor : ℚ) : XyzQ :=
  let f := clampVal factor 0 1
  ⟨a.x + (b.x - a.x) * f, a.y + (b.y - a.y) * f, a.z + (b.z - a.z) * f⟩

/-- Embedding of `Mix for Rgb` (src/rgb/rgb.rs); the impl is restricted to
standards whose transfer function is `LinearFn`, so this models mixing of
linear RGB only. -/
def rgbMix (a b : RgbQ) (factor : ℚ) : RgbQ :=
  let f := clampVal factor 0 1
  ⟨a.red + (b.red - a.red) * f,
   a.green + (b.green - a.green) * f,
   a.blue + (b.blue - a.blue) * f⟩

/-- Embedding of `Mix for Alpha<C, T>` (src/alpha/alpha.rs): clamp the
factor, mix the wrapped color with the clamped factor (via `mixC`), and
interpolate alpha as `alpha + factor * (other.alpha - alpha)`. -/
def alphaMix {C : Type} (mixC : C → C → ℚ → C) (a b : AlphaQ C)
    (factor : ℚ) : AlphaQ C :=
  let f := clampVal factor 0 1
  ⟨mixC a.color b.color f, a.alpha + f * (b.alpha - a.alpha)⟩

/-- Embedding of `Lighten::lighten for Lab` (src/lab.rs). -/
def labLighten (c : LabQ) (factor : ℚ) : LabQ :=
  let difference := if factor ≥ 0 then labMaxL - c.l else c.l
  let delta := max difference 0 * factor
  ⟨max (c.l + delta) labMinL, c.a, c.b⟩

/-- Embedding of `Lighten::lighten_fixed for Lab` (src/lab.rs). -/
def labLightenFixed (c : LabQ) (amount : ℚ) : LabQ :=
  ⟨max (c.l + labMaxL * amount) labMinL, c.a, c.b⟩

/-- Embedding of `Lighten::lighten for Luv` (src/luv.rs). -/
def luvLighten (c : LuvQ) (factor : ℚ) : LuvQ :=
  let difference := if factor ≥ 0 then luvMaxL - c.l else c.l
  let delta := max difference 0 * factor
  ⟨max (c.l + delta) luvMinL, c.u, c.v⟩

/-- Embedding of `Lighten::lighten_fixed for Luv` (src/luv.rs). -/
def luvLightenFixed (c : LuvQ) (amount : ℚ) : LuvQ :=
  ⟨max (c.l + luvMaxL * amount) luvMinL, c.u, c.v⟩

/-- Embedding of `Lighten::lighten for Xyz` (src/xyz.rs): the luminance
channel is `y` and its bounds come from the white point. -/
def xyzLighten (wp : XyzQ) (c : XyzQ) (factor : ℚ) : XyzQ :=
  let difference := if factor ≥ 0 then xyzMaxY wp - c.y else c.y
  let delta := max difference 0 * factor
  ⟨c.x, max (c.y + delta) xyzMinY, c.z⟩

/-- Embedding of `Lighten::lighten_fixed for Xyz` (src/xyz.rs). -/
def xyzLightenFixed (wp : XyzQ) (c : XyzQ) (amount : ℚ) : XyzQ :=
  ⟨c.x, max (c.y + xyzMaxY wp * amount) xyzMinY, c.z⟩

/-- Embedding of the inner `convert` helper of
`Lab::from_color_unclamped::<Xyz>` (src/lab.rs lines 179-188):
`epsilon = from_f64(6.0/29.0).powi(3)`, `kappa = from_f64(841.0/108.0)`,
`delta = from_f64(4.0/29.0)`; `if c > epsilon { c.cbrt() } else
{ kappa * c + delta }`.  The cube root is the abstract parameter
`cbrt`. -/
def labConvertFwd (cbrt : ℚ → ℚ) (c : ℚ) : ℚ :=
  if c > (6 / 29 : ℚ) ^ 3 then cbrt c else (841 / 108 : ℚ) * c + 4 / 29

/-- Embedding of `Lab::from_color_unclamped::<Xyz>` (src/lab.rs): divide
the input componentwise by the white point's tristimulus values, apply
`convert` to each component, then
`l = y * 116 - 16`, `a = (x - y) * 500`, `b = (y - z) * 200`. -/
def labFromXyz (cbrt : ℚ → ℚ) (wp : XyzQ) (c : XyzQ) : LabQ :=
  let x := labConvertFwd cbrt (c.x / wp.x)
  let y := labConvertFwd cbrt (c.y / wp.y)
  let z := labConvertFwd cbrt (c.z / wp.z)
  ⟨y * 116 - 16, (x - y) * 500, (y - z) * 200⟩

/-- Embedding of the inner `convert` helper of
`Xyz::from_color_unclamped::<Lab>` (src/xyz.rs lines 237-247):
`epsilon = from_f64(6.0/29.0)`, `kappa = from_f64(108.0/841.0)`,
`delta = from_f64(4.0/29.0)`; `if c > epsilon { c.powi(3) } else
{ (c - delta) * kappa }`. -/
def labConvertInv (c : ℚ) : ℚ :=
  if c > (6 / 29 : ℚ) then c ^ 3 else (c - 4 / 29) * (108 / 841)

/-- Embedding of `Xyz::from_color_unclamped::<Lab>` (src/xyz.rs):
`y = (l + 16) * 116⁻¹`, `x = y + a * 500⁻¹`, `z = y - b * 200⁻¹`, apply
`convert` to each, then multiply componentwise by the white point. -/
def xyzFromLab (wp : XyzQ) (c : LabQ) : XyzQ :=
  let y := (c.l + 16) * (116 : ℚ)⁻¹
  let x := y + c.a * (500 : ℚ)⁻¹
  let z := y - c.b * (200 : ℚ)⁻¹
  ⟨labConvertInv x * wp.x, labConvertInv y * wp.y, labConvertInv z * wp.z⟩

/-- Spec-side constant: break point `ε = (6/29)³`. -/
def cieEpsilonSpec : ℚ := (6 / 29) ^ 3

/-- Spec-side constant: slope `κ = 841/108`. -/
def cieKappaSpec : ℚ := 841 / 108

/-- Spec-side constant: offset `δ = 4/29`. -/
def cieDeltaSpec : ℚ := 4 / 29

/-- Spec-side definition (from the spec's words, for the refinement claim
C1): the CIE forward companding function with break point
`ε = (6/29)³`, slope `κ = 841/108` and offset `δ = 4/29`:
`f(t) = t^(1/3)` when `t > ε`, else `κ·t + δ`. -/
def cieForwardSpec (cbrt : ℚ → ℚ) (t : ℚ) : ℚ :=
  if t > cieEpsilonSpec then cbrt t else cieKappaSpec * t + cieDeltaSpec

/-- Spec-side definition (for C1): the inverse CIE companding function,
with the same constants: `f⁻¹(t) = t³` when its cube exceeds the break
point `ε = (6/29)³`, else `(t - δ)/κ` with `κ = 841/108`, `δ = 4/29`. -/
def cieInverseSpec (t : ℚ) : ℚ :=
  if t ^ 3 > cieEpsilonSpec then t ^ 3 else (t - cieDeltaSpec) / cieKappaSpec

/-- Spec-side definition (for C1): XYZ→Lab by the CIE formulas
`L = 116 f(Y/Yn) - 16`, `a = 500 (f(X/Xn) - f(Y/Yn))`,
`b = 200 (f(Y/Yn) - f(Z/Zn))`, scaled by the white point `(Xn, Yn, Zn)`. -/
def specLabFromXyz (cbrt : ℚ → ℚ) (wp : XyzQ) (c : XyzQ) : LabQ :=
  ⟨116 * cieForwardSpec cbrt (c.y / wp.y) - 16,
   500 * (cieForwardSpec cbrt (c.x / wp.x) - cieForwardSpec cbrt (c.y / wp.y)),
   200 * (cieForwardSpec cbrt (c.y / wp.y) - cieForwardSpec cbrt (c.z / wp.z))⟩

/-- Spec-side definition (for C1): Lab→XYZ by the inverse CIE formulas
`X = Xn f⁻¹(fx)`, `Y = Yn f⁻¹(fy)`, `Z = Zn f⁻¹(fz)` with
`fy = (L+16)/116`, `fx = fy + a/500`, `fz = fy - b/200`. -/
def specXyzFromLab (wp : XyzQ) (c : LabQ) : XyzQ :=
  ⟨wp.x * cieInverseSpec ((c.l + 16) / 116 + c.a / 500),
   wp.y * cieInverseSpec ((c.l + 16) / 116),
   wp.z * cieInverseSpec ((c.l + 16) / 116 - c.b / 200)⟩

/-- Embedding of `Luv::from_color_unclamped::<Xyz>` (src/luv.rs lines
181-215): `kappa = (29/3)³`, `epsilon = (6/29)³`; if the prime-coordinate
denominator `x + 15y + 3z` is zero, return the zero `Luv` color; else
compute `u′`, `v′`, the reference `u′ᵣ`, `v′ᵣ` from the white point,
`yᵣ = y/Yn`, `L = 116·yᵣ^(1/3) - 16` when `yᵣ > ε` else `κ·yᵣ`, and
`u = 13 L (u′ - u′ᵣ)`, `v = 13 L (v′ - v′ᵣ)`.  The `powf(1.0/3.0)` call
is the abstract `cbrt` parameter. -/
def luvFromXyz (cbrt : ℚ → ℚ) (wp : XyzQ) (c : XyzQ) : LuvQ :=
  let kappa : ℚ := (29 / 3) ^ 3
  let epsilon : ℚ := (6 / 29) ^ 3
  let primeDenom := c.x + 15 * c.y + 3 * c.z
  if primeDenom = 0 then ⟨0, 0, 0⟩
  else
    let primeDenomRecip := primeDenom⁻¹
    let primeRefDenomRecip := (wp.x + 15 * wp.y + 3 * wp.z)⁻¹
    let uPrime := 4 * c.x * primeDenomRecip
    let uRefPrime := 4 * wp.x * primeRefDenomRecip
    let vPrime := 9 * c.y * primeDenomRecip
    let vRefPrime := 9 * wp.y * primeRefDenomRecip
    let yr := c.y / wp.y
    let l := if yr > epsilon then 116 * cbrt yr - 16 else kappa * yr
    ⟨l, 13 * l * (uPrime - uRefPrime), 13 * l * (vPrime - vRefPrime)⟩

/-- Embedding of `Xyz::from_color_unclamped::<Luv>` (src/xyz.rs lines
258-284): `kappa = (29/3)³`; compute the reference `u′ᵣ`, `v′ᵣ`; if
`L < 1e-5`, return the zero `Xyz` color; else `Y = ((L+16)/116)³·Yn` when
`L > 8` else `L/κ·Yn`, `u′ = u/(13L) + u′ᵣ`, `v′ = v/(13L) + v′ᵣ`,
`X = Y·2.25·u′/v′`, `Z = Y·(3 - 0.75u′ - 5v′)/v′`. -/
def xyzFromLuv (wp : XyzQ) (c : LuvQ) : XyzQ :=
  let kappa : ℚ := (29 / 3) ^ 3
  let refDenomRecip := (wp.x + 15 * wp.y + 3 * wp.z)⁻¹
  let uRef := 4 * wp.x * refDenomRecip
  let vRef := 9 * wp.y * refDenomRecip
  if c.l < 1 / 100000 then ⟨0, 0, 0⟩
  else
    let y := (if c.l > 8 then ((c.l + 16) * (116 : ℚ)⁻¹) ^ 3
              else c.l * kappa⁻¹) * wp.y
    let uPrime := c.u / (13 * c.l) + uRef
    let vPrime := c.v / (13 * c.l) + vRef
    let x := y * (9 / 4) * uPrime / vPrime
    let z := y * (3 - (3 / 4) * uPrime - 5 * vPrime) / vPrime
    ⟨x, y, z⟩

/-- Embedding of `F2p2::VALUE` (src/encoding/gamma.rs): the type-level
constant `2.2f64`, the default gamma. -/
def f2p2Value : ℝ := 2.2

/-- Embedding of `TransferFn::into_linear for GammaFn<N>`
(src/encoding/gamma.rs): `x.powf(1/γ)`, over `ℝ` with real `rpow`. -/
noncomputable def gammaIntoLinear (gamma x : ℝ) : ℝ :=
  x ^ (1 / gamma)

/-- Embedding of `TransferFn::from_linear for GammaFn<N>`
(src/encoding/gamma.rs): `x.powf(γ)`. -/
noncomputable def gammaFromLinear (gamma x : ℝ) : ℝ :=
  x ^ gamma

/-- Embedding of a concrete `RgbStandard` type parameter for the
RGB-to-RGB conversion (src/rgb/rgb.rs): the zero-sized marker is reduced
to what `Rgb::from_color_unclamped::<Rgb>` consults about it — its
`TypeId` (`id`), the `TypeId` of its space's `Primaries`
(`primaries`), and its transfer function pair. -/
structure RgbStandardQ where
  id : ℕ
  primaries : ℕ
  intoLinearFn : ℚ → ℚ
  fromLinearFn : ℚ → ℚ

/-- Embedding of `Rgb::reinterpret_as` (src/rgb/rgb.rs lines 286-298):
the channel values are copied unchanged; only the phantom standard tag
changes. -/
def rgbReinterpretAs (c : RgbQ) : RgbQ :=
  ⟨c.red, c.green, c.blue⟩

/-- Embedding of `Rgb::into_linear` (src/rgb/rgb.rs): apply the
standard's `TransferFn::into_linear` to each channel. -/
def rgbIntoLinear (s : RgbStandardQ) (c : RgbQ) : RgbQ :=
  ⟨s.intoLinearFn c.red, s.intoLinearFn c.green, s.intoLinearFn c.blue⟩

/-- Embedding of `Rgb::from_linear` (src/rgb/rgb.rs): apply the
standard's `TransferFn::from_linear` to each channel. -/
def rgbFromLinear (s : RgbStandardQ) (c : RgbQ) : RgbQ :=
  ⟨s.fromLinearFn c.red, s.fromLinearFn c.green, s.fromLinearFn c.blue⟩

/-- Embedding of `Rgb::from_color_unclamped::<Rgb>` (src/rgb/rgb.rs lines
461-480).  `TypeId` equality of the two standards becomes equality of
their `id` fields, `TypeId` equality of their primaries becomes equality
of the `primaries` fields.  The XYZ pivot
(`Self::from_color_unclamped(Xyz::from_color_unclamped(rgb))`) goes
through `Xyz::from_color_unclamped::<Rgb>` and
`Rgb::from_color_unclamped::<Xyz>`, whose bodies depend on the RGB
primaries matrix code (src/matrix.rs, not among the provided files); they
are therefore passed as the abstract parameters `toXyz` and `fromXyz`. -/
def rgbFromRgbUnclamped (toXyz : RgbStandardQ → RgbQ → XyzQ)
    (fromXyz : RgbStandardQ → XyzQ → RgbQ)
    (s1 s2 : RgbStandardQ) (c : RgbQ) : RgbQ :=
  if s1.id = s2.id then rgbReinterpretAs c
  else if s1.primaries = s2.primaries then
    rgbFromLinear s1 (rgbReinterpretAs (rgbIntoLinear s2 c))
  else fromXyz s1 (toXyz s2 c)

/-- Embedding of `ParseIntError` kinds reachable from
`u8::from_str_radix(_, 16)` (Rust core): empty input, an invalid digit,
or positive overflow. -/
inductive ParseIntErrorKind where
  | empty : ParseIntErrorKind
  | invalidDigit : ParseIntErrorKind
  | posOverflow : ParseIntErrorKind
deriving DecidableEq

/-- Embedding of `FromHexError` (src/rgb/rgb.rs lines 1162-1168).  The
`&'static str` payload of `HexFormatError` is always the literal
"invalid hex code format" here, so it is dropped. -/
inductive FromHexError where
  | parseIntError : ParseIntErrorKind → FromHexError
  | hexFormatError : FromHexError
deriving DecidableEq

/-- Embedding of `Rgb<S, u8>`: three byte channels. -/
structure RgbU8 where
  red : ℕ
  green : ℕ
  blue : ℕ
deriving DecidableEq

/-- Hex digit value of a byte, as in Rust `char::to_digit(16)`:
`0-9`, `a-f`, `A-F`. -/
def toDigit16 (b : ℕ) : Option ℕ :=
  if 48 ≤ b ∧ b ≤ 57 then some (b - 48)
  else if 97 ≤ b ∧ b ≤ 102 then some (b - 87)
  else if 65 ≤ b ∧ b ≤ 70 then some (b - 55)
  else none

/-- Digit-accumulation loop of Rust `u8::from_str_radix(_, 16)`:
multiply-accumulate with checked `u8` arithmetic; overflow of either the
multiply or the add reports `PosOverflow`. -/
def parseDigitsU8 (s : List ℕ) (acc : ℕ) : Except ParseIntErrorKind ℕ :=
  match s with
  | [] => Except.ok acc
  | b :: rest =>
    match toDigit16 b with
    | none => Except.error ParseIntErrorKind.invalidDigit
    | some d =>
      if 255 < acc * 16 then Except.error ParseIntErrorKind.posOverflow
      else if 255 < acc * 16 + d then Except.error ParseIntErrorKind.posOverflow
      else parseDigitsU8 rest (acc * 16 + d)

/-- Embedding of Rust `u8::from_str_radix(src, 16)` on the byte slice
`src`: empty input is `Empty`; a leading `+` (byte 43) is stripped but a
lone `+` is `InvalidDigit`; a `-` is not accepted for the unsigned type
and falls through to the digit loop (hence `InvalidDigit`). -/
def fromStrRadix16 (s : List ℕ) : Except ParseIntErrorKind ℕ :=
  match s with
  | [] => Except.error ParseIntErrorKind.empty
  | b :: rest =>
    if b = 43 then
      if rest.isEmpty then Except.error ParseIntErrorKind.invalidDigit
      else parseDigitsU8 rest 0
    else parseDigitsU8 (b :: rest) 0

/-- A UTF-8 continuation byte (`0x80..0xBF`), which is never a char
boundary inside a Rust `str`. -/
def isContByte (b : ℕ) : Bool :=
  decide (128 ≤ b) && decide (b < 192)

/-- Embedding of Rust `str::is_char_boundary(i)` on the byte list:
index 0 is a boundary; past-the-end is a boundary only at exactly the
length; otherwise the byte at `i` must not be a continuation byte. -/
def isCharBoundary (s : List ℕ) (i : ℕ) : Bool :=
  if i = 0 then true
  else
    match s.get? i with
    | none => decide (i = s.length)
    | some b => !isContByte b

/-- Embedding of Rust string slicing `&s[a..b]`: defined (`some`) only
when `a ≤ b` and both ends are char boundaries; otherwise the code
panics (`none`). -/
def strSlice (s : List ℕ) (a b : ℕ) : Option (List ℕ) :=
  if a ≤ b ∧ isCharBoundary s a ∧ isCharBoundary s b
  then some ((s.drop a).take (b - a)) else none

/-- Embedding of `hex.strip_prefix('#').map_or(hex, ...)`
(src/rgb/rgb.rs line 1209): drop one leading `#` (byte 35) if present. -/
def stripHash (s : List ℕ) : List ℕ :=
  match s with
  | b :: rest => if b = 35 then rest else s
  | [] => s

/-- Checked `u8` multiplication by 17 (`red * 17` in the 3-digit branch
of `from_str`): overflow past 255 is an arithmetic panic (`none`). -/
def u8Mul17 (v : ℕ) : Option ℕ :=
  if v * 17 ≤ 255 then some (v * 17) else none

/-- Embedding of the body of `<Rgb<S, u8> as FromStr>::from_str`
(src/rgb/rgb.rs lines 1208-1228) after the `#` has been stripped, at the
byte level.  `none` models a panic (slicing off a char boundary, or `u8`
overflow in `red * 17`); `some (Except.error e)` models the returned
error; effects are sequenced exactly as in the source (`?` returns the
first parse error; each slice is taken right before it is parsed). -/
def rgbU8FromStrCore (hexCode : List ℕ) : Option (Except FromHexError RgbU8) :=
  if hexCode.length = 3 then
    match strSlice hexCode 0 1 with
    | none => none
    | some rs =>
      match fromStrRadix16 rs with
      | Except.error e => some (Except.error (FromHexError.parseIntError e))
      | Except.ok red =>
        match strSlice hexCode 1 2 with
        | none => none
        | some gs =>
          match fromStrRadix16 gs with
          | Except.error e => some (Except.error (FromHexError.parseIntError e))
          | Except.ok green =>
            match strSlice hexCode 2 3 with
            | none => none
            | some bs =>
              match fromStrRadix16 bs with
              | Except.error e =>
                some (Except.error (FromHexError.parseIntError e))
              | Except.ok blue =>
                match u8Mul17 red with
                | none => none
                | some r17 =>
                  match u8Mul17 green with
                  | none => none
                  | some g17 =>
                    match u8Mul17 blue with
                    | none => none
                    | some b17 => some (Except.ok ⟨r17, g17, b17⟩)
  else if hexCode.length = 6 then
    match strSlice hexCode 0 2 with
    | none => none
    | some rs =>
      match fromStrRadix16 rs with
      | Except.error e => some (Except.error (FromHexError.parseIntError e))
      | Except.ok red =>
        match strSlice hexCode 2 4 with
        | none => none
        | some gs =>
          match fromStrRadix16 gs with
          | Except.error e => some (Except.error (FromHexError.parseIntError e))
          | Except.ok green =>
            match strSlice hexCode 4 6 with
            | none => none
            | some bs =>
              match fromStrRadix16 bs with
              | Except.error e =>
                some (Except.error (FromHexError.parseIntError e))
              | Except.ok blue => some (Except.ok ⟨red, green, blue⟩)
  else some (Except.error FromHexError.hexFormatError)

/-- Embedding of `<Rgb<S, u8> as FromStr>::from_str` on the UTF-8 bytes
of the input string: strip one optional `#`, then dispatch on the byte
length. -/
def rgbU8FromStr (hex : List ℕ) : Option (Except FromHexError RgbU8) :=
  rgbU8FromStrCore (stripHash hex)

/-- Spec-side predicate (for C4): a byte is a hexadecimal digit. -/
def hexDigitAccepts (b : ℕ) : Bool :=
  (toDigit16 b).isSome

/-- Spec-side predicate (for the amended C4): a 2-byte channel slice is
accepted by Rust's radix-16 `u8` parsing — two hex digits, or a leading
`+` (byte 43) followed by one hex digit. -/
def hexPairAccepts (x y : ℕ) : Bool :=
  (decide (x = 43) || (toDigit16 x).isSome) && (toDigit16 y).isSome

/-- Helper: the scalar clamp lands in `[lo, hi]` whenever `lo ≤ hi`. -/
theorem clampVal_mem (v lo hi : ℚ) (h : lo ≤ hi) :
    lo ≤ clampVal v lo hi ∧ clampVal v lo hi ≤ hi := by
  unfold clampVal
  split_ifs with h1 h2 <;> constructor <;> linarith

/-- Helper: clamping a `Lab` value puts every channel within bounds. -/
theorem labClamp_within (c : LabQ) : labIsWithinBounds (labClamp c) = true := by
  obtain ⟨a1, a2⟩ := clampVal_mem c.l labMinL labMaxL
    (by norm_num [labMinL, labMaxL])
  obtain ⟨b1, b2⟩ := clampVal_mem c.a labMinA labMaxA
    (by norm_num [labMinA, labMaxA])
  obtain ⟨c1, c2⟩ := clampVal_mem c.b labMinB labMaxB
    (by norm_num [labMinB, labMaxB])
  simp [labIsWithinBounds, labClamp, ge_iff_le, a1, a2, b1, b2, c1, c2]

/-- Helper: clamping a `Luv` value puts every channel within bounds. -/
theorem luvClamp_within (c : LuvQ) : luvIsWithinBounds (luvClamp c) = true := by
  obtain ⟨a1, a2⟩ := clampVal_mem c.l luvMinL luvMaxL
    (by norm_num [luvMinL, luvMaxL])
  obtain ⟨b1, b2⟩ := clampVal_mem c.u luvMinU luvMaxU
    (by norm_num [luvMinU, luvMaxU])
  obtain ⟨c1, c2⟩ := clampVal_mem c.v luvMinV luvMaxV
    (by norm_num [luvMinV, luvMaxV])
  simp [luvIsWithinBounds, luvClamp, ge_iff_le, a1, a2, b1, b2, c1, c2]

/-- Helper: clamping an `Xyz` value puts every channel within bounds,
provided the white point's tristimulus values are nonnegative. -/
theorem xyzClamp_within (wp : XyzQ) (hx : 0 ≤ wp.x) (hy : 0 ≤ wp.y)
    (hz : 0 ≤ wp.z) (c : XyzQ) :
    xyzIsWithinBounds wp (xyzClamp wp c) = true := by
  obtain ⟨a1, a2⟩ := clampVal_mem c.x xyzMinX (xyzMaxX wp) hx
  obtain ⟨b1, b2⟩ := clampVal_mem c.y xyzMinY (xyzMaxY wp) hy
  obtain ⟨c1, c2⟩ := clampVal_mem c.z xyzMinZ (xyzMaxZ wp) hz
  simp [xyzIsWithinBounds, xyzClamp, ge_iff_le, a1, a2, b1, b2, c1, c2]

/-- Helper: clamping an `Rgb` value puts every channel within bounds,
provided `zero() <= max_intensity()`. -/
theorem rgbClamp_within (maxI : ℚ) (hI : 0 ≤ maxI) (c : RgbQ) :
    rgbIsWithinBounds maxI (rgbClamp maxI c) = true := by
  obtain ⟨a1, a2⟩ := clampVal_mem c.red rgbMinChannel (rgbMaxChannel maxI) hI
  obtain ⟨b1, b2⟩ := clampVal_mem c.green rgbMinChannel (rgbMaxChannel maxI) hI
  obtain ⟨c1, c2⟩ := clampVal_mem c.blue rgbMinChannel (rgbMaxChannel maxI) hI
  simp [rgbIsWithinBounds, rgbClamp, ge_iff_le, a1, a2, b1, b2, c1, c2]

/-- Helper: clamping an `Alpha` value puts it within bounds whenever
clamping the wrapped color does. -/
theorem alphaClamp_within {C : Type} (inC : C → Bool) (clampC : C → C)
    (maxA : ℚ) (hA : 0 ≤ maxA) (hC : ∀ v, inC (clampC v) = true)
    (c : AlphaQ C) :
    alphaIsWithinBounds inC maxA (alphaClamp clampC maxA c) = true := by
  obtain ⟨a1, a2⟩ := clampVal_mem c.alpha alphaMin (alphaMax maxA) hA
  simp [alphaIsWithinBounds, alphaClamp, ge_iff_le, a1, a2, hC]

/-- C3: for every color type (Rgb, Xyz, Lab, Luv, and Alpha of any of
them) and every input value, including out-of-range channels,
`clamp(v).is_within_bounds()` returns true — given the structural
invariants of the type parameters (`zero() <= max_intensity()` for the
component type, nonnegative white-point tristimulus values). -/
theorem clamp_then_within_bounds (maxI maxA : ℚ) (wp : XyzQ)
    (hI : 0 ≤ maxI) (hA : 0 ≤ maxA)
    (hx : 0 ≤ wp.x) (hy : 0 ≤ wp.y) (hz : 0 ≤ wp.z) :
    (∀ c : RgbQ, rgbIsWithinBounds maxI (rgbClamp maxI c) = true) ∧
    (∀ c : XyzQ, xyzIsWithinBounds wp (xyzClamp wp c) = true) ∧
    (∀ c : LabQ, labIsWithinBounds (labClamp c) = true) ∧
    (∀ c : LuvQ, luvIsWithinBounds (luvClamp c) = true) ∧
    (∀ c : AlphaQ RgbQ,
      alphaIsWithinBounds (rgbIsWithinBounds maxI) maxA
        (alphaClamp (rgbClamp maxI) maxA c) = true) ∧
    (∀ c : AlphaQ XyzQ,
      alphaIsWithinBounds (xyzIsWithinBounds wp) maxA
        (alphaClamp (xyzClamp wp) maxA c) = true) ∧
    (∀ c : AlphaQ LabQ,
      alphaIsWithinBounds labIsWithinBounds maxA
        (alphaClamp labClamp maxA c) = true) ∧
    (∀ c : AlphaQ LuvQ,
      alphaIsWithinBounds luvIsWithinBounds maxA
        (alphaClamp luvClamp maxA c) = true) := by
  refine ⟨rgbClamp_within maxI hI, xyzClamp_within wp hx hy hz,
    labClamp_within, luvClamp_within, ?_, ?_, ?_, ?_⟩
  · exact alphaClamp_within _ _ maxA hA (rgbClamp_within maxI hI)
  · exact alphaClamp_within _ _ maxA hA (xyzClamp_within wp hx hy hz)
  · exact alphaClamp_within _ _ maxA hA labClamp_within
  · exact alphaClamp_within _ _ maxA hA luvClamp_within

/-- Witness for C3: the bounds hypotheses hold at the concrete values
`max_intensity = 1`, D65-like white point `(0.95047, 1, 1.08883)`, and a
far out-of-range Lab input is clamped into bounds. -/
theorem clamp_then_within_bounds_witness :
    labIsWithinBounds (labClamp ⟨-1000, 1000, 555⟩) = true ∧
    xyzIsWithinBounds ⟨95047/100000, 1, 108883/100000⟩
      (xyzClamp ⟨95047/100000, 1, 108883/100000⟩ ⟨2, -3, 4⟩) = true :=
  ⟨(clamp_then_within_bounds 1 1 ⟨95047/100000, 1, 108883/100000⟩
      (by norm_num) (by norm_num) (by norm_num) (by norm_num)
      (by norm_num)).2.2.1 ⟨-1000, 1000, 555⟩,
   (clamp_then_within_bounds 1 1 ⟨95047/100000, 1, 108883/100000⟩
      (by norm_num) (by norm_num) (by norm_num) (by norm_num)
      (by norm_num)).2.1 ⟨2, -3, 4⟩⟩

/-- C6: the per-channel bounds used by `is_within_bounds` and `clamp` are
exactly: Rgb channels in `[zero, max_intensity]`; Xyz axes in
`[0, white-point tristimulus value]`; Lab `l ∈ [0, 100]`,
`a, b ∈ [-128, 127]`; Luv `l ∈ [0, 100]`, `u ∈ [-84, 176]`,
`v ∈ [-135, 108]`. -/
theorem channel_bounds_exact (wp : XyzQ) (maxI : ℚ) :
    (labMinL = 0 ∧ labMaxL = 100 ∧ labMinA = -128 ∧ labMaxA = 127 ∧
      labMinB = -128 ∧ labMaxB = 127) ∧
    (luvMinL = 0 ∧ luvMaxL = 100 ∧ luvMinU = -84 ∧ luvMaxU = 176 ∧
      luvMinV = -135 ∧ luvMaxV = 108) ∧
    (xyzMinX = 0 ∧ xyzMaxX wp = wp.x ∧ xyzMinY = 0 ∧ xyzMaxY wp = wp.y ∧
      xyzMinZ = 0 ∧ xyzMaxZ wp = wp.z) ∧
    (rgbMinChannel = 0 ∧ rgbMaxChannel maxI = maxI) ∧
    (∀ c : LabQ, labIsWithinBounds c = true ↔
      (0 ≤ c.l ∧ c.l ≤ 100 ∧ -128 ≤ c.a ∧ c.a ≤ 127 ∧
        -128 ≤ c.b ∧ c.b ≤ 127)) ∧
    (∀ c : LuvQ, luvIsWithinBounds c = true ↔
      (0 ≤ c.l ∧ c.l ≤ 100 ∧ -84 ≤ c.u ∧ c.u ≤ 176 ∧
        -135 ≤ c.v ∧ c.v ≤ 108)) ∧
    (∀ c : XyzQ, xyzIsWithinBounds wp c = true ↔
      (0 ≤ c.x ∧ c.x ≤ wp.x ∧ 0 ≤ c.y ∧ c.y ≤ wp.y ∧
        0 ≤ c.z ∧ c.z ≤ wp.z)) ∧
    (∀ c : RgbQ, rgbIsWithinBounds maxI c = true ↔
      (0 ≤ c.red ∧ c.red ≤ maxI ∧ 0 ≤ c.green ∧ c.green ≤ maxI ∧
        0 ≤ c.blue ∧ c.blue ≤ maxI)) ∧
    (∀ c : LabQ, labClamp c =
      ⟨clampVal c.l 0 100, clampVal c.a (-128) 127, clampVal c.b (-128) 127⟩) ∧
    (∀ c : LuvQ, luvClamp c =
      ⟨clampVal c.l 0 100, clampVal c.u (-84) 176, clampVal c.v (-135) 108⟩) ∧
    (∀ c : XyzQ, xyzClamp wp c =
      ⟨clampVal c.x 0 wp.x, clampVal c.y 0 wp.y, clampVal c.z 0 wp.z⟩) ∧
    (∀ c : RgbQ, rgbClamp maxI c =
      ⟨clampVal c.red 0 maxI, clampVal c.green 0 maxI,
        clampVal c.blue 0 maxI⟩) := by
  refine ⟨⟨rfl, rfl, rfl, rfl, rfl, rfl⟩, ⟨rfl, rfl, rfl, rfl, rfl, rfl⟩,
    ⟨rfl, rfl, rfl, rfl, rfl, rfl⟩, ⟨rfl, rfl⟩, ?_, ?_, ?_, ?_,
    fun c => rfl, fun c => rfl, fun c => rfl, fun c => rfl⟩
  · intro c
    simp [labIsWithinBounds, labMinL, labMaxL, labMinA, labMaxA, labMinB,
      labMaxB, ge_iff_le, and_assoc]
  · intro c
    simp [luvIsWithinBounds, luvMinL, luvMaxL, luvMinU, luvMaxU, luvMinV,
      luvMaxV, ge_iff_le, and_assoc]
  · intro c
    simp [xyzIsWithinBounds, xyzMinX, xyzMaxX, xyzMinY, xyzMaxY, xyzMinZ,
      xyzMaxZ, ge_iff_le, and_assoc]
  · intro c
    simp [rgbIsWithinBounds, rgbMinChannel, rgbMaxChannel, ge_iff_le,
      and_assoc]

/-- C8: for every color value of a `Mix`-implementing type (Xyz, Lab,
Luv, linear-RGB, and Alpha wrappers) and every factor `f ∈ [0, 1]`,
`v.mix(v, f) = v`. -/
theorem mix_self_idempotent (f : ℚ) (hf0 : 0 ≤ f) (hf1 : f ≤ 1) :
    (∀ c : XyzQ, xyzMix c c f = c) ∧
    (∀ c : LabQ, labMix c c f = c) ∧
    (∀ c : LuvQ, luvMix c c f = c) ∧
    (∀ c : RgbQ, rgbMix c c f = c) ∧
    (∀ (C : Type) (mixC : C → C → ℚ → C),
      (∀ v g, mixC v v g = v) →
      ∀ c : AlphaQ C, alphaMix mixC c c f = c) := by
  refine ⟨fun c => ?_, fun c => ?_, fun c => ?_, fun c => ?_,
    fun C mixC h c => ?_⟩
  · simp [xyzMix]
  · simp [labMix]
  · simp [luvMix]
  · simp [rgbMix]
  · simp [alphaMix, h]

/-- Witness for C8: mixing a concrete Xyz value and a concrete
Alpha-wrapped Lab value with themselves at factor `1/2` returns them
unchanged. -/
theorem mix_self_idempotent_witness :
    xyzMix ⟨1/4, 1/2, 3/4⟩ ⟨1/4, 1/2, 3/4⟩ (1/2) = ⟨1/4, 1/2, 3/4⟩ ∧
    alphaMix labMix ⟨⟨50, -20, 30⟩, 1⟩ ⟨⟨50, -20, 30⟩, 1⟩ (1/2) =
      (⟨⟨50, -20, 30⟩, 1⟩ : AlphaQ LabQ) := by
  have h := mix_self_idempotent (1/2) (by norm_num) (by norm_num)
  exact ⟨h.1 _, h.2.2.2.2 LabQ labMix (fun v g => by simp [labMix]) _⟩

/-- C9: `lighten` and `lighten_fixed` on Xyz, Lab and Luv change only
the luminance channel (`y` resp. `l`), keep the other two channels
exactly, and never drive the luminance below its minimum — for every
factor or amount, positive or negative. -/
theorem lighten_frame_conditions (wp : XyzQ) (f : ℚ) :
    (∀ c : XyzQ, (xyzLighten wp c f).x = c.x ∧ (xyzLighten wp c f).z = c.z ∧
      xyzMinY ≤ (xyzLighten wp c f).y) ∧
    (∀ c : XyzQ, (xyzLightenFixed wp c f).x = c.x ∧
      (xyzLightenFixed wp c f).z = c.z ∧
      xyzMinY ≤ (xyzLightenFixed wp c f).y) ∧
    (∀ c : LabQ, (labLighten c f).a = c.a ∧ (labLighten c f).b = c.b ∧
      labMinL ≤ (labLighten c f).l) ∧
    (∀ c : LabQ, (labLightenFixed c f).a = c.a ∧
      (labLightenFixed c f).b = c.b ∧ labMinL ≤ (labLightenFixed c f).l) ∧
    (∀ c : LuvQ, (luvLighten c f).u = c.u ∧ (luvLighten c f).v = c.v ∧
      luvMinL ≤ (luvLighten c f).l) ∧
    (∀ c : LuvQ, (luvLightenFixed c f).u = c.u ∧
      (luvLightenFixed c f).v = c.v ∧ luvMinL ≤ (luvLightenFixed c f).l) := by
  refine ⟨fun c => ⟨rfl, rfl, ?_⟩, fun c => ⟨rfl, rfl, ?_⟩,
    fun c => ⟨rfl, rfl, ?_⟩, fun c => ⟨rfl, rfl, ?_⟩,
    fun c => ⟨rfl, rfl, ?_⟩, fun c => ⟨rfl, rfl, ?_⟩⟩
  · exact le_max_right _ _
  · exact le_max_right _ _
  · exact le_max_right _ _
  · exact le_max_right _ _
  · exact le_max_right _ _
  · exact le_max_right _ _

/-- Helper: the source's forward `convert` equals the spec's CIE forward
companding function. -/
theorem labConvertFwd_eq_spec (cbrt : ℚ → ℚ) (t : ℚ) :
    labConvertFwd cbrt t = cieForwardSpec cbrt t := by
  simp [labConvertFwd, cieForwardSpec, cieEpsilonSpec, cieKappaSpec,
    cieDeltaSpec]

/-- Helper: the source's inverse `convert` (break point `6/29` on the
companded scale, slope `108/841`) equals the spec's inverse CIE function
(break point `ε = (6/29)³` on the linear scale, slope `1/κ` with
`κ = 841/108`). -/
theorem labConvertInv_eq_spec (t : ℚ) :
    labConvertInv t = cieInverseSpec t := by
  have hmono := (Odd.strictMono_pow (R := ℚ) (⟨1, by norm_num⟩ : Odd 3)).lt_iff_lt
    (a := (6 / 29 : ℚ)) (b := t)
  simp only at hmono
  unfold labConvertInv cieInverseSpec cieEpsilonSpec cieKappaSpec cieDeltaSpec
  by_cases h : (6 / 29 : ℚ) < t
  · rw [if_pos h, if_pos (hmono.mpr h)]
  · rw [if_neg h, if_neg (fun hc => h (hmono.mp hc))]
    ring

/-- C1: both directions of the Lab/XYZ conversion apply the CIE piecewise
cube-root/cube transform with break point `ε = (6/29)³`, slope
`κ = 841/108` and offset `δ = 4/29`, scaled by the white point's
tristimulus values: the source conversions agree pointwise with the
spec-side CIE formulas, for every cube-root implementation, white point
and input. -/
theorem lab_xyz_cie_transform (cbrt : ℚ → ℚ) (wp : XyzQ) :
    (∀ c : XyzQ, labFromXyz cbrt wp c = specLabFromXyz cbrt wp c) ∧
    (∀ c : LabQ, xyzFromLab wp c = specXyzFromLab wp c) ∧
    cieEpsilonSpec = (6 / 29) ^ 3 ∧ cieKappaSpec = 841 / 108 ∧
    cieDeltaSpec = 4 / 29 := by
  refine ⟨fun c => ?_, fun c => ?_, rfl, rfl, rfl⟩
  · simp only [labFromXyz, specLabFromXyz, labConvertFwd_eq_spec,
      LabQ.mk.injEq]
    refine ⟨by ring, by ring, by ring⟩
  · simp only [xyzFromLab, specXyzFromLab, labConvertInv_eq_spec,
      XyzQ.mk.injEq]
    rw [show (c.l + 16) * (116 : ℚ)⁻¹ = (c.l + 16) / 116 by ring,
      show (c.l + 16) / 116 + c.a * (500 : ℚ)⁻¹ =
        (c.l + 16) / 116 + c.a / 500 by ring,
      show (c.l + 16) / 116 - c.b * (200 : ℚ)⁻¹ =
        (c.l + 16) / 116 - c.b / 200 by ring]
    refine ⟨by ring, by ring, by ring⟩

/-- C2: the Xyz↔Luv conversions are total, division-guarded functions:
`Luv::from_color_unclamped` returns the zero Luv color when the
denominator `x + 15y + 3z` is zero (and otherwise that guarded
denominator is nonzero), and `Xyz::from_color_unclamped` returns the zero
Xyz color when `l < 1e-5` (and otherwise the guarded denominator `13·l`
is nonzero). -/
theorem luv_xyz_division_guards (cbrt : ℚ → ℚ) (wp : XyzQ) :
    (∀ c : XyzQ, c.x + 15 * c.y + 3 * c.z = 0 →
      luvFromXyz cbrt wp c = ⟨0, 0, 0⟩) ∧
    (∀ c : XyzQ, luvFromXyz cbrt wp c = ⟨0, 0, 0⟩ ∨
      c.x + 15 * c.y + 3 * c.z ≠ 0) ∧
    (∀ c : LuvQ, c.l < 1 / 100000 → xyzFromLuv wp c = ⟨0, 0, 0⟩) ∧
    (∀ c : LuvQ, xyzFromLuv wp c = ⟨0, 0, 0⟩ ∨
      ((13 : ℚ) * c.l ≠ 0 ∧ ¬c.l < 1 / 100000)) := by
  refine ⟨fun c h => ?_, fun c => ?_, fun c h => ?_, fun c => ?_⟩
  · simp [luvFromXyz, h]
  · by_cases h : c.x + 15 * c.y + 3 * c.z = 0
    · exact Or.inl (by simp [luvFromXyz, h])
    · exact Or.inr h
  · unfold xyzFromLuv
    rw [if_pos h]
  · by_cases h : c.l < 1 / 100000
    · exact Or.inl (by unfold xyzFromLuv; rw [if_pos h])
    · refine Or.inr ⟨?_, h⟩
      have hl : (1 : ℚ) / 100000 ≤ c.l := le_of_not_lt h
      positivity

/-- Witness for C2: both zero-guards fire at concrete inputs — the zero
Xyz color maps to the zero Luv color, and a Luv color with `l` below
`1e-5` maps to the zero Xyz color, under a D65-like white point. -/
theorem luv_xyz_division_guards_witness :
    luvFromXyz (fun t => t) ⟨95047/100000, 1, 108883/100000⟩ ⟨0, 0, 0⟩ =
      ⟨0, 0, 0⟩ ∧
    xyzFromLuv ⟨95047/100000, 1, 108883/100000⟩ ⟨1/1000000, 20, -30⟩ =
      ⟨0, 0, 0⟩ := by
  have h := luv_xyz_division_guards (fun t => t)
    ⟨95047/100000, 1, 108883/100000⟩
  exact ⟨h.1 ⟨0, 0, 0⟩ (by norm_num), h.2.2.1 ⟨1/1000000, 20, -30⟩
    (by norm_num)⟩

/-- C5: RGB-to-RGB conversion takes exactly one of three paths: identical
standard → channels returned unchanged; same primaries but different
standard → per-channel decode with the source transfer function and
re-encode with the destination one, independent of the XYZ conversions
(which are universally quantified); different primaries → convert through
Xyz and back. -/
theorem rgb_rgb_three_paths (toXyz : RgbStandardQ → RgbQ → XyzQ)
    (fromXyz : RgbStandardQ → XyzQ → RgbQ)
    (s1 s2 : RgbStandardQ) (c : RgbQ) :
    (s1.id = s2.id → rgbFromRgbUnclamped toXyz fromXyz s1 s2 c = c) ∧
    (s1.id ≠ s2.id → s1.primaries = s2.primaries →
      rgbFromRgbUnclamped toXyz fromXyz s1 s2 c =
        ⟨s1.fromLinearFn (s2.intoLinearFn c.red),
         s1.fromLinearFn (s2.intoLinearFn c.green),
         s1.fromLinearFn (s2.intoLinearFn c.blue)⟩) ∧
    (s1.id ≠ s2.id → s1.primaries ≠ s2.primaries →
      rgbFromRgbUnclamped toXyz fromXyz s1 s2 c =
        fromXyz s1 (toXyz s2 c)) := by
  refine ⟨fun h => ?_, fun h hp => ?_, fun h hp => ?_⟩
  · simp [rgbFromRgbUnclamped, rgbReinterpretAs, h]
  · simp [rgbFromRgbUnclamped, rgbReinterpretAs, rgbIntoLinear,
      rgbFromLinear, h, hp]
  · simp [rgbFromRgbUnclamped, h, hp]

/-- Witness for C5: concrete standards exercising all three paths, with a
channel-swapping pair of XYZ conversions to make the pivot visible. -/
theorem rgb_rgb_three_paths_witness :
    rgbFromRgbUnclamped (fun _ c => ⟨c.red, c.green, c.blue⟩)
      (fun _ x => ⟨x.z, x.y, x.x⟩)
      ⟨0, 0, fun q => q + 1, fun q => q - 1⟩
      ⟨0, 0, fun q => q + 1, fun q => q - 1⟩ ⟨1, 2, 3⟩ = ⟨1, 2, 3⟩ ∧
    rgbFromRgbUnclamped (fun _ c => ⟨c.red, c.green, c.blue⟩)
      (fun _ x => ⟨x.z, x.y, x.x⟩)
      ⟨0, 0, fun q => q + 1, fun q => q - 1⟩
      ⟨1, 0, fun q => 2 * q, fun q => q / 2⟩ ⟨1, 2, 3⟩ = ⟨1, 3, 5⟩ ∧
    rgbFromRgbUnclamped (fun _ c => ⟨c.red, c.green, c.blue⟩)
      (fun _ x => ⟨x.z, x.y, x.x⟩)
      ⟨0, 0, fun q => q + 1, fun q => q - 1⟩
      ⟨1, 1, fun q => 2 * q, fun q => q / 2⟩ ⟨1, 2, 3⟩ = ⟨3, 2, 1⟩ := by
  refine ⟨?_, ?_, ?_⟩
  · exact (rgb_rgb_three_paths _ _ _ _ _).1 rfl
  · have h := (rgb_rgb_three_paths (fun _ c => ⟨c.red, c.green, c.blue⟩)
      (fun _ x => ⟨x.z, x.y, x.x⟩)
      ⟨0, 0, fun q => q + 1, fun q => q - 1⟩
      ⟨1, 0, fun q => 2 * q, fun q => q / 2⟩ ⟨1, 2, 3⟩).2.1
      (by decide) rfl
    rw [h]
    norm_num
  · exact (rgb_rgb_three_paths _ _ _ _ _).2.2 (by decide) (by decide)

/-- C7: for the gamma transfer function with the default constant
`γ = 2.2` and every `x ∈ [0, 1]`, `from_linear(into_linear(x))` is within
`1e-6` of `x` (over the reals the round trip is exact, so the bound
holds with room to spare). -/
theorem gamma_round_trip (x : ℝ) (h0 : 0 ≤ x) (h1 : x ≤ 1) :
    |gammaFromLinear f2p2Value (gammaIntoLinear f2p2Value x) - x| ≤ 1e-6 := by
  have hg : f2p2Value ≠ 0 := by norm_num [f2p2Value]
  have hexact : gammaFromLinear f2p2Value (gammaIntoLinear f2p2Value x) = x := by
    unfold gammaFromLinear gammaIntoLinear
    rw [← Real.rpow_mul h0, one_div_mul_cancel hg, Real.rpow_one]
  rw [hexact]
  simp
  norm_num

/-- Witness for C7: the round trip at the concrete endpoint `x = 1` is
within the epsilon. -/
theorem gamma_round_trip_witness :
    |gammaFromLinear f2p2Value (gammaIntoLinear f2p2Value 1) - 1| ≤ 1e-6 :=
  gamma_round_trip 1 (by norm_num) (by norm_num)

/-- Helper: a hex digit value is at most 15. -/
theorem toDigit16_le (b v : ℕ) (h : toDigit16 b = some v) : v ≤ 15 := by
  unfold toDigit16 at h
  split_ifs at h with h1 h2 h3 <;> simp only [Option.some.injEq] at h <;> omega

/-- Helper: `+` (byte 43) is not a hex digit. -/
theorem toDigit16_plus : toDigit16 43 = none := by decide

/-- Helper: evaluation of `u8::from_str_radix` on a single byte: a hex
digit gives its value, anything else (including a lone `+`) is an
invalid-digit error. -/
theorem fromStrRadix16_one (b : ℕ) :
    fromStrRadix16 [b] =
      (match toDigit16 b with
       | none => Except.error ParseIntErrorKind.invalidDigit
       | some v => Except.ok v) := by
  unfold fromStrRadix16
  by_cases hb : b = 43
  · subst hb
    simp [toDigit16_plus]
  · simp only [if_neg hb, parseDigitsU8]
    rcases h : toDigit16 b with _ | v
    · simp
    · have := toDigit16_le b v h
      simp [parseDigitsU8]
      omega

/-- Helper: evaluation of `u8::from_str_radix` on two bytes: either two
hex digits (value `16·hi + lo`), or `+` followed by one hex digit (its
value), otherwise an invalid-digit error. -/
theorem fromStrRadix16_two (x y : ℕ) :
    fromStrRadix16 [x, y] =
      (if x = 43 then
        (match toDigit16 y with
         | none => Except.error ParseIntErrorKind.invalidDigit
         | some vy => Except.ok vy)
      else
        (match toDigit16 x with
         | none => Except.error ParseIntErrorKind.invalidDigit
         | some vx =>
           match toDigit16 y with
           | none => Except.error ParseIntErrorKind.invalidDigit
           | some vy => Except.ok (16 * vx + vy))) := by
  unfold fromStrRadix16
  by_cases hx : x = 43
  · subst hx
    simp only [if_pos rfl, List.isEmpty_cons, parseDigitsU8]
    rcases h : toDigit16 y with _ | vy
    · simp
    · have := toDigit16_le y vy h
      simp [parseDigitsU8]
      omega
  · simp only [if_neg hx, parseDigitsU8]
    rcases h : toDigit16 x with _ | vx
    · simp
    · have hvx := toDigit16_le x vx h
      rcases h2 : toDigit16 y with _ | vy
      · simp [parseDigitsU8]
        omega
      · have hvy := toDigit16_le y vy h2
        simp only [parseDigitsU8, h2]
        split_ifs with g1 g2 <;> try omega
        all_goals simp [parseDigitsU8]
        all_goals omega

/-- Helper: a successful one-byte radix-16 parse yields at most 15. -/
theorem fromStrRadix16_one_le (b v : ℕ)
    (h : fromStrRadix16 [b] = Except.ok v) : v ≤ 15 := by
  rw [fromStrRadix16_one] at h
  rcases h2 : toDigit16 b with _ | w
  · rw [h2] at h; cases h
  · rw [h2] at h
    simp only [Except.ok.injEq] at h
    subst h
    exact toDigit16_le b w h2

/-- Helper: closed-form evaluation of the parser core on a 3-byte input:
slice boundaries are checked at byte indices 1 and 2 (continuation bytes
there panic), each single byte is parsed as one hex digit, and the digit
values are expanded by 17. -/
theorem core3_eval (b0 b1 b2 : ℕ) :
    rgbU8FromStrCore [b0, b1, b2] =
      (if isContByte b1 then none
       else match fromStrRadix16 [b0] with
        | Except.error e => some (Except.error (FromHexError.parseIntError e))
        | Except.ok red =>
          if isContByte b2 then none
          else match fromStrRadix16 [b1] with
            | Except.error e =>
              some (Except.error (FromHexError.parseIntError e))
            | Except.ok green =>
              match fromStrRadix16 [b2] with
              | Except.error e =>
                some (Except.error (FromHexError.parseIntError e))
              | Except.ok blue =>
                some (Except.ok ⟨red * 17, green * 17, blue * 17⟩)) := by
  have hs1 : strSlice [b0, b1, b2] 0 1 =
      if isContByte b1 then none else some [b0] := by
    simp [strSlice, isCharBoundary]
    by_cases h : isContByte b1 <;> simp [h]
  have hs2 : ¬ isContByte b1 → ¬ isContByte b2 → strSlice [b0, b1, b2] 1 2 =
      some [b1] := by
    intro h1 h2
    simp [strSlice, isCharBoundary, h1, h2]
  have hs3 : ¬ isContByte b1 → ¬ isContByte b2 → strSlice [b0, b1, b2] 2 3 =
      some [b2] := by
    intro h1 h2
    simp [strSlice, isCharBoundary, h1, h2]
  by_cases hc1 : isContByte b1
  · simp [rgbU8FromStrCore, hs1, hc1]
  · rw [if_neg hc1]
    rcases hr : fromStrRadix16 [b0] with e | red
    · simp [rgbU8FromStrCore, hs1, hc1, hr]
    · have hred := fromStrRadix16_one_le b0 red hr
      by_cases hc2 : isContByte b2
      · simp [rgbU8FromStrCore, hs1, hc1, hr, strSlice, isCharBoundary, hc2]
      · rcases hg : fromStrRadix16 [b1] with e | green
        · simp [rgbU8FromStrCore, hs1, hc1, hr, hs2 hc1 hc2, hg, hc2]
        · have hgreen := fromStrRadix16_one_le b1 green hg
          rcases hb : fromStrRadix16 [b2] with e | blue
          · simp [rgbU8FromStrCore, hs1, hc1, hr, hs2 hc1 hc2, hg,
              hs3 hc1 hc2, hb, hc2]
          · have hblue := fromStrRadix16_one_le b2 blue hb
            have m1 : red * 17 ≤ 255 := by omega
            have m2 : green * 17 ≤ 255 := by omega
            have m3 : blue * 17 ≤ 255 := by omega
            simp [rgbU8FromStrCore, hs1, hc1, hr, hs2 hc1 hc2, hg,
              hs3 hc1 hc2, hb, hc2, u8Mul17, m1, m2, m3]

/-- Helper: closed-form evaluation of the parser core on a 6-byte input:
slice boundaries are checked at byte indices 2 and 4, each 2-byte slice
is parsed by `u8::from_str_radix(_, 16)`, and the channel bytes are taken
as parsed. -/
theorem core6_eval (b0 b1 b2 b3 b4 b5 : ℕ) :
    rgbU8FromStrCore [b0, b1, b2, b3, b4, b5] =
      (if isContByte b2 then none
       else match fromStrRadix16 [b0, b1] with
        | Except.error e => some (Except.error (FromHexError.parseIntError e))
        | Except.ok red =>
          if isContByte b4 then none
          else match fromStrRadix16 [b2, b3] with
            | Except.error e =>
              some (Except.error (FromHexError.parseIntError e))
            | Except.ok green =>
              match fromStrRadix16 [b4, b5] with
              | Except.error e =>
                some (Except.error (FromHexError.parseIntError e))
              | Except.ok blue => some (Except.ok ⟨red, green, blue⟩)) := by
  have hs1 : strSlice [b0, b1, b2, b3, b4, b5] 0 2 =
      if isContByte b2 then none else some [b0, b1] := by
    simp [strSlice, isCharBoundary]
    by_cases h : isContByte b2 <;> simp [h]
  have hs2 : ¬ isContByte b2 → ¬ isContByte b4 →
      strSlice [b0, b1, b2, b3, b4, b5] 2 4 = some [b2, b3] := by
    intro h1 h2
    simp [strSlice, isCharBoundary, h1, h2]
  have hs3 : ¬ isContByte b2 → ¬ isContByte b4 →
      strSlice [b0, b1, b2, b3, b4, b5] 4 6 = some [b4, b5] := by
    intro h1 h2
    simp [strSlice, isCharBoundary, h1, h2]
  by_cases hc1 : isContByte b2
  · simp [rgbU8FromStrCore, hs1, hc1]
  · rw [if_neg hc1]
    rcases hr : fromStrRadix16 [b0, b1] with e | red
    · simp [rgbU8FromStrCore, hs1, hc1, hr]
    · by_cases hc2 : isContByte b4
      · simp [rgbU8FromStrCore, hs1, hc1, hr, strSlice, isCharBoundary, hc2]
      · rcases hg : fromStrRadix16 [b2, b3] with e | green
        · simp [rgbU8FromStrCore, hs1, hc1, hr, hs2 hc1 hc2, hg, hc2]
        · rcases hb : fromStrRadix16 [b4, b5] with e | blue
          · simp [rgbU8FromStrCore, hs1, hc1, hr, hs2 hc1 hc2, hg,
              hs3 hc1 hc2, hb, hc2]
          · simp [rgbU8FromStrCore, hs1, hc1, hr, hs2 hc1 hc2, hg,
              hs3 hc1 hc2, hb, hc2]

/-- Helper: the parser core returns the hex-format error on any byte
length other than 3 and 6. -/
theorem core_wrong_length (t : List ℕ) (h3 : t.length ≠ 3)
    (h6 : t.length ≠ 6) :
    rgbU8FromStrCore t = some (Except.error FromHexError.hexFormatError) := by
  unfold rgbU8FromStrCore
  rw [if_neg h3, if_neg h6]

/-- Helper: hex digits are ASCII, hence never UTF-8 continuation bytes. -/
theorem toDigit16_isSome_not_cont (b : ℕ) (h : (toDigit16 b).isSome) :
    isContByte b = false := by
  have hb : b < 128 := by
    unfold toDigit16 at h
    split_ifs at h with h1 h2 h3
    · omega
    · omega
    · omega
    · simp at h
  simp [isContByte]
  omega

/-- Helper: a one-byte radix-16 parse succeeds iff the byte is a hex
digit. -/
theorem fromStrRadix16_one_ok_iff (b : ℕ) :
    (∃ v, fromStrRadix16 [b] = Except.ok v) ↔ hexDigitAccepts b = true := by
  rw [fromStrRadix16_one]
  unfold hexDigitAccepts
  rcases h : toDigit16 b with _ | v <;> simp [h]

/-- Helper: a two-byte radix-16 parse succeeds iff the slice is two hex
digits or `+` followed by a hex digit. -/
theorem fromStrRadix16_two_ok_iff (x y : ℕ) :
    (∃ v, fromStrRadix16 [x, y] = Except.ok v) ↔
      hexPairAccepts x y = true := by
  rw [fromStrRadix16_two]
  unfold hexPairAccepts
  by_cases hx : x = 43
  · rcases h : toDigit16 y with _ | v <;> simp [hx, h, toDigit16_plus]
  · rcases h : toDigit16 x with _ | v <;>
      rcases h2 : toDigit16 y with _ | w <;> simp [hx, h, h2]

/-- Helper: the parser core succeeds on a 3-byte input exactly when all
three bytes are hex digits. -/
theorem core3_ok_iff (b0 b1 b2 : ℕ) :
    (∃ c, rgbU8FromStrCore [b0, b1, b2] = some (Except.ok c)) ↔
      (hexDigitAccepts b0 = true ∧ hexDigitAccepts b1 = true ∧
        hexDigitAccepts b2 = true) := by
  rw [core3_eval]
  constructor
  · rintro ⟨c, hc⟩
    by_cases h1 : isContByte b1
    · simp [h1] at hc
    rw [if_neg h1] at hc
    rcases hr : fromStrRadix16 [b0] with e | red <;> rw [hr] at hc
    · simp at hc
    dsimp only at hc
    by_cases h2 : isContByte b2
    · simp [h2] at hc
    rw [if_neg h2] at hc
    rcases hg : fromStrRadix16 [b1] with e | green <;> rw [hg] at hc
    · simp at hc
    dsimp only at hc
    rcases hb : fromStrRadix16 [b2] with e | blue <;> rw [hb] at hc
    · simp at hc
    exact ⟨(fromStrRadix16_one_ok_iff b0).mp ⟨red, hr⟩,
      (fromStrRadix16_one_ok_iff b1).mp ⟨green, hg⟩,
      (fromStrRadix16_one_ok_iff b2).mp ⟨blue, hb⟩⟩
  · rintro ⟨h0, h1, h2⟩
    obtain ⟨red, hr⟩ := (fromStrRadix16_one_ok_iff b0).mpr h0
    obtain ⟨green, hg⟩ := (fromStrRadix16_one_ok_iff b1).mpr h1
    obtain ⟨blue, hb⟩ := (fromStrRadix16_one_ok_iff b2).mpr h2
    rw [if_neg (by simp [toDigit16_isSome_not_cont b1 (by simpa [hexDigitAccepts] using h1)]), hr]
    dsimp only
    rw [if_neg (by simp [toDigit16_isSome_not_cont b2 (by simpa [hexDigitAccepts] using h2)]), hg]
    dsimp only
    rw [hb]
    exact ⟨_, rfl⟩

/-- Helper: the `+` byte is not a continuation byte. -/
theorem plus_not_cont : isContByte 43 = false := by decide

/-- Helper: an accepted 2-byte slice starts with a non-continuation
byte. -/
theorem hexPairAccepts_fst_not_cont (x y : ℕ)
    (h : hexPairAccepts x y = true) : isContByte x = false := by
  unfold hexPairAccepts at h
  simp only [Bool.and_eq_true, Bool.or_eq_true, decide_eq_true_eq] at h
  rcases h.1 with h1 | h1
  · subst h1; exact plus_not_cont
  · exact toDigit16_isSome_not_cont x h1

/-- Helper: the parser core succeeds on a 6-byte input exactly when each
2-byte slice is accepted by the radix-16 parse. -/
theorem core6_ok_iff (b0 b1 b2 b3 b4 b5 : ℕ) :
    (∃ c, rgbU8FromStrCore [b0, b1, b2, b3, b4, b5] =
      some (Except.ok c)) ↔
      (hexPairAccepts b0 b1 = true ∧ hexPairAccepts b2 b3 = true ∧
        hexPairAccepts b4 b5 = true) := by
  rw [core6_eval]
  constructor
  · rintro ⟨c, hc⟩
    by_cases h1 : isContByte b2
    · simp [h1] at hc
    rw [if_neg h1] at hc
    rcases hr : fromStrRadix16 [b0, b1] with e | red <;> rw [hr] at hc
    · simp at hc
    dsimp only at hc
    by_cases h2 : isContByte b4
    · simp [h2] at hc
    rw [if_neg h2] at hc
    rcases hg : fromStrRadix16 [b2, b3] with e | green <;> rw [hg] at hc
    · simp at hc
    dsimp only at hc
    rcases hb : fromStrRadix16 [b4, b5] with e | blue <;> rw [hb] at hc
    · simp at hc
    exact ⟨(fromStrRadix16_two_ok_iff b0 b1).mp ⟨red, hr⟩,
      (fromStrRadix16_two_ok_iff b2 b3).mp ⟨green, hg⟩,
      (fromStrRadix16_two_ok_iff b4 b5).mp ⟨blue, hb⟩⟩
  · rintro ⟨h0, h1, h2⟩
    obtain ⟨red, hr⟩ := (fromStrRadix16_two_ok_iff b0 b1).mpr h0
    obtain ⟨green, hg⟩ := (fromStrRadix16_two_ok_iff b2 b3).mpr h1
    obtain ⟨blue, hb⟩ := (fromStrRadix16_two_ok_iff b4 b5).mpr h2
    rw [if_neg (by simp [hexPairAccepts_fst_not_cont b2 b3 h1]), hr]
    dsimp only
    rw [if_neg (by simp [hexPairAccepts_fst_not_cont b4 b5 h2]), hg]
    dsimp only
    rw [hb]
    exact ⟨_, rfl⟩

/-- Helper: a list of length 6 destructures into six elements. -/
theorem list_length_eq_six {α : Type} {l : List α} (h : l.length = 6) :
    ∃ a b c d e f, l = [a, b, c, d, e, f] := by
  rcases l with _ | ⟨a, _ | ⟨b, _ | ⟨c, _ | ⟨d, _ | ⟨e, _ | ⟨f, rest⟩⟩⟩⟩⟩⟩ <;>
    simp only [List.length_cons, List.length_nil] at h <;> try omega
  have hrest : rest = [] := List.length_eq_zero.mp (by omega)
  subst hrest
  exact ⟨a, b, c, d, e, f, rfl⟩

/-- Helper: every byte of the `#`-stripped string is a byte of the
original string. -/
theorem stripHash_mem (hex : List ℕ) (b : ℕ) (hb : b ∈ stripHash hex) :
    b ∈ hex := by
  rcases hex with _ | ⟨x, rest⟩
  · simpa [stripHash] using hb
  · by_cases hx : x = 35
    · simp only [stripHash, if_pos hx] at hb
      exact List.mem_cons_of_mem _ hb
    · simpa only [stripHash, if_neg hx] using hb

/-- Counterexample for C4: the six-byte string `"+fffff"` contains a
non-hex-digit byte (`+`, byte 43), so by the claim it should fail with
the integer-parse error variant; instead `from_str` succeeds with
`RGB(15, 255, 255)`, because Rust's `u8::from_str_radix` accepts an
optional leading `+` in the two-digit slice. -/
theorem hex_parse_plus_sign_counterexample :
    rgbU8FromStr [43, 102, 102, 102, 102, 102] =
      some (Except.ok ⟨15, 255, 255⟩) ∧
    hexDigitAccepts 43 = false :=
  ⟨rfl, rfl⟩

/-- C4 (amended): after stripping one optional `#`, a byte length other
than 3 or 6 yields the hex-format error; parsing succeeds exactly when
the string is 3 hex digits, or 6 bytes whose three 2-byte slices each
parse under Rust radix-16 `u8` parsing (two hex digits, or `+` followed
by a hex digit); a 3-digit success duplicates each digit (×17) into a
byte and a 6-digit success parses pairwise; and on non-panicking inputs
of the right length any failing slice yields the integer-parse error
variant. -/
theorem hex_parse_characterization (hex : List ℕ) :
    ((stripHash hex).length ≠ 3 → (stripHash hex).length ≠ 6 →
      rgbU8FromStr hex = some (Except.error FromHexError.hexFormatError)) ∧
    ((∃ c, rgbU8FromStr hex = some (Except.ok c)) ↔
      ((∃ b0 b1 b2, stripHash hex = [b0, b1, b2] ∧
          hexDigitAccepts b0 = true ∧ hexDigitAccepts b1 = true ∧
          hexDigitAccepts b2 = true) ∨
        (∃ b0 b1 b2 b3 b4 b5,
          stripHash hex = [b0, b1, b2, b3, b4, b5] ∧
          hexPairAccepts b0 b1 = true ∧ hexPairAccepts b2 b3 = true ∧
          hexPairAccepts b4 b5 = true))) ∧
    (∀ b0 b1 b2 v0 v1 v2, stripHash hex = [b0, b1, b2] →
      toDigit16 b0 = some v0 → toDigit16 b1 = some v1 →
      toDigit16 b2 = some v2 →
      rgbU8FromStr hex = some (Except.ok ⟨v0 * 17, v1 * 17, v2 * 17⟩)) ∧
    (∀ b0 b1 b2 b3 b4 b5 r g b,
      stripHash hex = [b0, b1, b2, b3, b4, b5] →
      fromStrRadix16 [b0, b1] = Except.ok r →
      fromStrRadix16 [b2, b3] = Except.ok g →
      fromStrRadix16 [b4, b5] = Except.ok b →
      rgbU8FromStr hex = some (Except.ok ⟨r, g, b⟩)) ∧
    (∀ b0 b1 b2, stripHash hex = [b0, b1, b2] →
      isContByte b1 = false → isContByte b2 = false →
      ¬(hexDigitAccepts b0 = true ∧ hexDigitAccepts b1 = true ∧
        hexDigitAccepts b2 = true) →
      ∃ e, rgbU8FromStr hex =
        some (Except.error (FromHexError.parseIntError e))) ∧
    (∀ b0 b1 b2 b3 b4 b5,
      stripHash hex = [b0, b1, b2, b3, b4, b5] →
      isContByte b2 = false → isContByte b4 = false →
      ¬(hexPairAccepts b0 b1 = true ∧ hexPairAccepts b2 b3 = true ∧
        hexPairAccepts b4 b5 = true) →
      ∃ e, rgbU8FromStr hex =
        some (Except.error (FromHexError.parseIntError e))) := by
  refine ⟨?_, ?_, ?_, ?_, ?_, ?_⟩
  · intro h3 h6
    exact core_wrong_length _ h3 h6
  · constructor
    · rintro ⟨c, hc⟩
      by_cases h3 : (stripHash hex).length = 3
      · obtain ⟨b0, b1, b2, ht⟩ := List.length_eq_three.mp h3
        refine Or.inl ⟨b0, b1, b2, ht, ?_⟩
        have : ∃ c, rgbU8FromStrCore [b0, b1, b2] = some (Except.ok c) := by
          refine ⟨c, ?_⟩
          rw [← ht]
          exact hc
        obtain ⟨h0, h1, h2⟩ := (core3_ok_iff b0 b1 b2).mp this
        exact ⟨h0, h1, h2⟩
      by_cases h6 : (stripHash hex).length = 6
      · obtain ⟨b0, b1, b2, b3, b4, b5, ht⟩ := list_length_eq_six h6
        refine Or.inr ⟨b0, b1, b2, b3, b4, b5, ht, ?_⟩
        have : ∃ c, rgbU8FromStrCore [b0, b1, b2, b3, b4, b5] =
            some (Except.ok c) := by
          refine ⟨c, ?_⟩
          rw [← ht]
          exact hc
        exact (core6_ok_iff b0 b1 b2 b3 b4 b5).mp this
      · rw [show rgbU8FromStr hex = rgbU8FromStrCore (stripHash hex) from rfl,
          core_wrong_length _ h3 h6] at hc
        cases hc
    · rintro (⟨b0, b1, b2, ht, h0, h1, h2⟩ |
        ⟨b0, b1, b2, b3, b4, b5, ht, h0, h1, h2⟩)
      · obtain ⟨c, hc⟩ := (core3_ok_iff b0 b1 b2).mpr ⟨h0, h1, h2⟩
        exact ⟨c, by rw [show rgbU8FromStr hex =
          rgbU8FromStrCore (stripHash hex) from rfl, ht]; exact hc⟩
      · obtain ⟨c, hc⟩ := (core6_ok_iff b0 b1 b2 b3 b4 b5).mpr ⟨h0, h1, h2⟩
        exact ⟨c, by rw [show rgbU8FromStr hex =
          rgbU8FromStrCore (stripHash hex) from rfl, ht]; exact hc⟩
  · intro b0 b1 b2 v0 v1 v2 ht h0 h1 h2
    rw [show rgbU8FromStr hex = rgbU8FromStrCore (stripHash hex) from rfl, ht,
      core3_eval]
    have e0 : fromStrRadix16 [b0] = Except.ok v0 := by
      rw [fromStrRadix16_one, h0]
    have e1 : fromStrRadix16 [b1] = Except.ok v1 := by
      rw [fromStrRadix16_one, h1]
    have e2 : fromStrRadix16 [b2] = Except.ok v2 := by
      rw [fromStrRadix16_one, h2]
    rw [if_neg (by simp [toDigit16_isSome_not_cont b1 (by simp [h1])]), e0]
    dsimp only
    rw [if_neg (by simp [toDigit16_isSome_not_cont b2 (by simp [h2])]), e1]
    dsimp only
    rw [e2]
  · intro b0 b1 b2 b3 b4 b5 r g b ht h0 h1 h2
    rw [show rgbU8FromStr hex = rgbU8FromStrCore (stripHash hex) from rfl, ht,
      core6_eval]
    have a1 : hexPairAccepts b2 b3 = true :=
      (fromStrRadix16_two_ok_iff b2 b3).mp ⟨g, h1⟩
    have a2 : hexPairAccepts b4 b5 = true :=
      (fromStrRadix16_two_ok_iff b4 b5).mp ⟨b, h2⟩
    rw [if_neg (by simp [hexPairAccepts_fst_not_cont b2 b3 a1]), h0]
    dsimp only
    rw [if_neg (by simp [hexPairAccepts_fst_not_cont b4 b5 a2]), h1]
    dsimp only
    rw [h2]
  · intro b0 b1 b2 ht hc1 hc2 hnot
    rw [show rgbU8FromStr hex = rgbU8FromStrCore (stripHash hex) from rfl, ht,
      core3_eval, if_neg (by simp [hc1])]
    rcases hr : fromStrRadix16 [b0] with e | red
    · exact ⟨e, rfl⟩
    · dsimp only
      rw [if_neg (by simp [hc2])]
      rcases hg : fromStrRadix16 [b1] with e | green
      · exact ⟨e, rfl⟩
      · dsimp only
        rcases hb : fromStrRadix16 [b2] with e | blue
        · exact ⟨e, rfl⟩
        · exact absurd ⟨(fromStrRadix16_one_ok_iff b0).mp ⟨red, hr⟩,
            (fromStrRadix16_one_ok_iff b1).mp ⟨green, hg⟩,
            (fromStrRadix16_one_ok_iff b2).mp ⟨blue, hb⟩⟩ hnot
  · intro b0 b1 b2 b3 b4 b5 ht hc1 hc2 hnot
    rw [show rgbU8FromStr hex = rgbU8FromStrCore (stripHash hex) from rfl, ht,
      core6_eval, if_neg (by simp [hc1])]
    rcases hr : fromStrRadix16 [b0, b1] with e | red
    · exact ⟨e, rfl⟩
    · dsimp only
      rw [if_neg (by simp [hc2])]
      rcases hg : fromStrRadix16 [b2, b3] with e | green
      · exact ⟨e, rfl⟩
      · dsimp only
        rcases hb : fromStrRadix16 [b4, b5] with e | blue
        · exact ⟨e, rfl⟩
        · exact absurd ⟨(fromStrRadix16_two_ok_iff b0 b1).mp ⟨red, hr⟩,
            (fromStrRadix16_two_ok_iff b2 b3).mp ⟨green, hg⟩,
            (fromStrRadix16_two_ok_iff b4 b5).mp ⟨blue, hb⟩⟩ hnot

/-- Witness for C4 (amended): the spec's own examples — `"#08f"` parses
to `RGB(0, 136, 255)` and `"#12"` fails with the hex-format error. -/
theorem hex_parse_characterization_witness :
    rgbU8FromStr [35, 48, 56, 102] = some (Except.ok ⟨0, 136, 255⟩) ∧
    rgbU8FromStr [35, 49, 50] =
      some (Except.error FromHexError.hexFormatError) := by
  have h1 := (hex_parse_characterization [35, 48, 56, 102]).2.2.1 48 56 102
    0 8 15 (by decide) (by decide) (by decide) (by decide)
  have h2 := (hex_parse_characterization [35, 49, 50]).1 (by decide) (by decide)
  refine ⟨?_, h2⟩
  rw [h1]

/-- Counterexample for C10: on the valid two-character UTF-8 string
`"é8"` (bytes `C3 A9 38`, byte length 3) the 3-digit branch slices
`&hex_code[..1]`, but byte index 1 falls inside the two-byte character
`é` (`A9` is a continuation byte), so the slicing panics — the function
does not return at all (`none` in the embedding). -/
theorem from_str_char_boundary_panic_counterexample :
    rgbU8FromStr [195, 169, 56] = none :=
  rfl

/-- C10 (amended): `from_str` never panics on an input string all of
whose bytes are ASCII: the byte length checks make every slice lie on
char boundaries, each 3-digit channel value comes from one hex digit and
is at most 15, so the `×17` expansion cannot overflow `u8`.  (On
non-ASCII input a channel-slice boundary can split a multi-byte
character and panic.) -/
theorem from_str_no_panic_ascii (hex : List ℕ)
    (h : ∀ b ∈ hex, b < 128) : rgbU8FromStr hex ≠ none := by
  have ht128 : ∀ b ∈ stripHash hex, b < 128 :=
    fun b hb => h b (stripHash_mem hex b hb)
  show rgbU8FromStrCore (stripHash hex) ≠ none
  by_cases h3 : (stripHash hex).length = 3
  · obtain ⟨b0, b1, b2, ht⟩ := List.length_eq_three.mp h3
    have hc1 : isContByte b1 = false := by
      have := ht128 b1 (by rw [ht]; simp)
      simp [isContByte]
      omega
    have hc2 : isContByte b2 = false := by
      have := ht128 b2 (by rw [ht]; simp)
      simp [isContByte]
      omega
    rw [ht, core3_eval, if_neg (by simp [hc1])]
    rcases hr : fromStrRadix16 [b0] with e | red
    · simp
    · dsimp only
      rw [if_neg (by simp [hc2])]
      rcases hg : fromStrRadix16 [b1] with e | green
      · simp
      · dsimp only
        rcases hb : fromStrRadix16 [b2] with e | blue <;> simp
  by_cases h6 : (stripHash hex).length = 6
  · obtain ⟨b0, b1, b2, b3, b4, b5, ht⟩ := list_length_eq_six h6
    have hc1 : isContByte b2 = false := by
      have := ht128 b2 (by rw [ht]; simp)
      simp [isContByte]
      omega
    have hc2 : isContByte b4 = false := by
      have := ht128 b4 (by rw [ht]; simp)
      simp [isContByte]
      omega
    rw [ht, core6_eval, if_neg (by simp [hc1])]
    rcases hr : fromStrRadix16 [b0, b1] with e | red
    · simp
    · dsimp only
      rw [if_neg (by simp [hc2])]
      rcases hg : fromStrRadix16 [b2, b3] with e | green
      · simp
      · dsimp only
        rcases hb : fromStrRadix16 [b4, b5] with e | blue <;> simp
  · rw [core_wrong_length _ h3 h6]
    simp

/-- Witness for C10 (amended): the ASCII hypothesis holds at the
concrete input `"#fff"` and the parse indeed does not panic. -/
theorem from_str_no_panic_ascii_witness :
    rgbU8FromStr [35, 102, 102, 102] ≠ none :=
  from_str_no_panic_ascii [35, 102, 102, 102] (by decide)
